import Mathlib

/-!
Shallow embedding of the "tuling" in-browser image composition editor.

The data model (`Layer`, `FontStyle`, `BackgroundConfig`, `AspectRatio`)
follows `types.ts`; the store operations (`addTextLayer`, `addStickerLayer`,
`updateLayer`, `updateLayerStyle`, `deleteLayer`, `handleImageUpload`,
`handleExport`) follow the `App` component; the geometry handlers
(`onResize`, rotation snapping) follow `components/LayerComponent.tsx`;
`generateCaption` follows `services/geminiService.ts`.

JavaScript numbers are modelled as rationals; JavaScript `%` (remainder
with the sign of the dividend) and `Math.round` (floor of x + 1/2) are
given explicit definitions.
-/

namespace Tuling

/-- `LayerType` from types.ts: variant tag of a layer. -/
inductive LayerType where
  | TEXT
  | STICKER
deriving DecidableEq, Repr

/-- `FontStyle` from types.ts: style record, present only on Text layers. -/
structure FontStyle where
  fontFamily : String
  fontSize : ℚ
  color : String
  backgroundColor : String
  fontWeight : String
  textAlign : String
  padding : ℚ
  borderRadius : ℚ
  lineHeight : ℚ
deriving DecidableEq, Repr

/-- `Layer` from types.ts. `style` is optional ("Only for text"). -/
structure Layer where
  id : String
  type : LayerType
  x : ℚ
  y : ℚ
  width : ℚ
  height : ℚ
  rotation : ℚ
  content : String
  style : Option FontStyle := none
deriving DecidableEq, Repr

/-- `AspectRatio` from types.ts. -/
structure AspectRatio where
  name : String
  width : ℚ
  height : ℚ
  label : String
  icon : String
deriving DecidableEq, Repr

/-- `BackgroundConfig` from types.ts. -/
structure BackgroundConfig where
  scale : ℚ
  x : ℚ
  y : ℚ
  filter : String
deriving DecidableEq, Repr

/-- `INITIAL_TEXT_STYLE` constant from App. -/
def INITIAL_TEXT_STYLE : FontStyle :=
  { fontFamily := "\"Noto Sans SC\", sans-serif"
    fontSize := 42
    color := "#ffffff"
    backgroundColor := "rgba(0,0,0,0)"
    fontWeight := "bold"
    textAlign := "center"
    padding := 10
    borderRadius := 0
    lineHeight := 12/10 }

/-- `INITIAL_BG_CONFIG` constant from App. -/
def INITIAL_BG_CONFIG : BackgroundConfig :=
  { scale := 1, x := 0, y := 0, filter := "none" }

/-- The slice of the App component's React state that the store operations
read and write: background image (a data URL or null), the ordered layer
list, the selection, the active frame, the original image size, the
background configuration, the interactive canvas zoom, the export busy
flag, the mobile-layout flag, and the pre-fetched font CSS blob. -/
structure EditorState where
  image : Option String
  layers : List Layer
  selectedLayerId : Option String
  aspectRatio : AspectRatio
  originalSize : Option (ℚ × ℚ)
  bgConfig : BackgroundConfig
  canvasScale : ℚ
  isExporting : Bool
  isMobile : Bool
  fontCss : String
deriving DecidableEq, Repr

/-- JavaScript truthiness of a nullable string: `!s` is true exactly when
the value is null or the empty string. -/
def strFalsy : Option String → Bool
  | none => true
  | some s => s = ""

/-- `addTextLayer` from App (the fresh uuid is passed in). Returns the new
state together with the alert message raised, if any. -/
def addTextLayer (s : EditorState) (newId : String) : EditorState × Option String :=
  if strFalsy s.image then (s, some "请先上传图片")
  else
    let newLayer : Layer :=
      { id := newId
        type := LayerType.TEXT
        x := s.aspectRatio.width / 2 - 200
        y := if s.isMobile then s.aspectRatio.height * (2/10) else s.aspectRatio.height / 2 - 75
        width := 400
        height := 150
        rotation := 0
        content := "双击编辑文本"
        style := some INITIAL_TEXT_STYLE }
    ({ s with layers := s.layers ++ [newLayer], selectedLayerId := some newId }, none)

/-- `addStickerLayer` from App (the fresh uuid is passed in). Returns the
new state together with the alert message raised, if any. -/
def addStickerLayer (s : EditorState) (newId : String) (sticker : String) :
    EditorState × Option String :=
  if strFalsy s.image then (s, some "请先上传图片")
  else
    let newLayer : Layer :=
      { id := newId
        type := LayerType.STICKER
        x := s.aspectRatio.width / 2 - 50
        y := if s.isMobile then s.aspectRatio.height * (2/10) else s.aspectRatio.height / 2 - 50
        width := 150
        height := 150
        rotation := 0
        content := sticker
        style := none }
    ({ s with layers := s.layers ++ [newLayer], selectedLayerId := some newId }, none)

/-- `Partial<Layer>`: an update payload in which every field is optional.
An absent field leaves the layer's field unchanged under object spread. -/
structure LayerPatch where
  id : Option String := none
  type : Option LayerType := none
  x : Option ℚ := none
  y : Option ℚ := none
  width : Option ℚ := none
  height : Option ℚ := none
  rotation : Option ℚ := none
  content : Option String := none
  style : Option FontStyle := none
deriving DecidableEq, Repr

/-- Object spread `{ ...l, ...updates }` for a layer and a payload. -/
def mergeLayer (l : Layer) (u : LayerPatch) : Layer :=
  { id := u.id.getD l.id
    type := u.type.getD l.type
    x := u.x.getD l.x
    y := u.y.getD l.y
    width := u.width.getD l.width
    height := u.height.getD l.height
    rotation := u.rotation.getD l.rotation
    content := u.content.getD l.content
    style := match u.style with
      | some st => some st
      | none => l.style }

/-- `updateLayer` from App: merge the payload into the matching layer. -/
def updateLayer (s : EditorState) (id : String) (u : LayerPatch) : EditorState :=
  { s with layers := s.layers.map (fun l => if l.id = id then mergeLayer l u else l) }

/-- `Partial<FontStyle>`: a style update payload. -/
structure StylePatch where
  fontFamily : Option String := none
  fontSize : Option ℚ := none
  color : Option String := none
  backgroundColor : Option String := none
  fontWeight : Option String := none
  textAlign : Option String := none
  padding : Option ℚ := none
  borderRadius : Option ℚ := none
  lineHeight : Option ℚ := none
deriving DecidableEq, Repr

/-- Object spread `{ ...l.style!, ...styleUpdates }`. -/
def mergeStyle (st : FontStyle) (u : StylePatch) : FontStyle :=
  { fontFamily := u.fontFamily.getD st.fontFamily
    fontSize := u.fontSize.getD st.fontSize
    color := u.color.getD st.color
    backgroundColor := u.backgroundColor.getD st.backgroundColor
    fontWeight := u.fontWeight.getD st.fontWeight
    textAlign := u.textAlign.getD st.textAlign
    padding := u.padding.getD st.padding
    borderRadius := u.borderRadius.getD st.borderRadius
    lineHeight := u.lineHeight.getD st.lineHeight }

/-- `updateLayerStyle` from App: merge a style payload into the matching
layer, but only when that layer is a Text layer. The source reads
`l.style!` (non-null assertion); a Text layer with a missing style keeps
`style = none` here, matching the spread of an absent object. -/
def updateLayerStyle (s : EditorState) (id : String) (u : StylePatch) : EditorState :=
  { s with layers := s.layers.map (fun l =>
      if l.id = id ∧ l.type = LayerType.TEXT then
        { l with style := match l.style with
            | some st => some (mergeStyle st u)
            | none => none }
      else l) }

/-- `deleteLayer` from App: filter the layer out; clear the selection when
it referenced the deleted id. -/
def deleteLayer (s : EditorState) (id : String) : EditorState :=
  { s with
    layers := s.layers.filter (fun l => l.id ≠ id)
    selectedLayerId := if s.selectedLayerId = some id then none else s.selectedLayerId }

/-- `setSelectedLayerId` from App: plain selection assignment. -/
def selectLayer (s : EditorState) (id : Option String) : EditorState :=
  { s with selectedLayerId := id }

/-! ### Geometry engine: resize (LayerComponent.tsx) -/

/-- The eight react-rnd resize handles. -/
inductive ResizeDir where
  | top | right | bottom | left
  | topLeft | topRight | bottomLeft | bottomRight
deriving DecidableEq, Repr

/-- `['topLeft','topRight','bottomLeft','bottomRight'].includes(direction)`. -/
def isCorner : ResizeDir → Bool
  | ResizeDir.topLeft => true
  | ResizeDir.topRight => true
  | ResizeDir.bottomLeft => true
  | ResizeDir.bottomRight => true
  | _ => false

/-- `resizeStartData`: width, height and font size captured once at
resize-gesture start. -/
structure ResizeStartData where
  width : ℚ
  height : ℚ
  fontSize : ℚ
deriving DecidableEq, Repr

/-- `onResizeStart` from LayerComponent: capture start data when the layer
is a Text layer with a style; otherwise the ref keeps its previous value. -/
def onResizeStart (l : Layer) (prev : Option ResizeStartData) : Option ResizeStartData :=
  match l.style with
  | some st =>
      if l.type = LayerType.TEXT then some ⟨l.width, l.height, st.fontSize⟩ else prev
  | none => prev

/-- One `onResize` callback invocation: the new size read off the element,
the direction, and the position react-rnd reports. -/
structure ResizeEvent where
  direction : ResizeDir
  newWidth : ℚ
  newHeight : ℚ
  posX : ℚ
  posY : ℚ
deriving DecidableEq, Repr

/-- `onResize` from LayerComponent: write the new size and position; when
the layer is a Text layer with a style, start data was captured, and the
handle is a corner, also rescale the font size by the height ratio with a
floor of 12. -/
def onResize (startData : Option ResizeStartData) (l : Layer) (ev : ResizeEvent) : Layer :=
  let base : Layer :=
    { l with width := ev.newWidth, height := ev.newHeight, x := ev.posX, y := ev.posY }
  match l.style, startData with
  | some st, some sd =>
      if l.type = LayerType.TEXT ∧ isCorner ev.direction then
        let newFontSize := max 12 (sd.fontSize * (ev.newHeight / sd.height))
        { base with style := some ({ st with fontSize := newFontSize }) }
      else base
  | _, _ => base

/-- A whole resize gesture: `onResizeStart` fires once, then the captured
start data is held fixed while every `onResize` event is applied in order. -/
def resizeGesture (l : Layer) (prev : Option ResizeStartData) (evs : List ResizeEvent) : Layer :=
  (evs.foldl (onResize (onResizeStart l prev)) l)

/-! ### Geometry engine: rotation snapping (LayerComponent.tsx) -/

/-- JavaScript truncation toward zero, as used by the `%` operator. -/
def jsTrunc (q : ℚ) : ℤ := if 0 ≤ q then ⌊q⌋ else ⌈q⌉

/-- JavaScript `%`: remainder carrying the sign of the dividend. -/
def jsMod (a b : ℚ) : ℚ := a - b * jsTrunc (a / b)

/-- JavaScript `Math.round`: half-values round toward positive infinity. -/
def jsRound (q : ℚ) : ℤ := ⌊q + 1/2⌋

/-- `(rotation % 360 + 360) % 360` from `handleMove`. -/
def normalizedRot (rotation : ℚ) : ℚ := jsMod (jsMod rotation 360 + 360) 360

/-- The snapping cascade of `handleMove`: normalize to `[0, 360)`, snap to
the nearest axis multiple when within the 5-degree window, preserving the
winding count via `round(rotation/360)*360`. -/
def snapRotation (rotation : ℚ) : ℚ :=
  if normalizedRot rotation < 5 ∨ normalizedRot rotation > 355 then
    (jsRound (rotation / 360) : ℚ) * 360
  else if |normalizedRot rotation - 90| < 5 then
    (jsRound (rotation / 360) : ℚ) * 360 + 90
  else if |normalizedRot rotation - 180| < 5 then
    (jsRound (rotation / 360) : ℚ) * 360 + 180
  else if |normalizedRot rotation - 270| < 5 then
    (jsRound (rotation / 360) : ℚ) * 360 + 270
  else rotation

/-- `handleRotateStart`: the offset fixed at gesture start, from the
pointer angle at that instant and the current rotation. -/
def rotateOffset (startPointerAngle currentRotation : ℚ) : ℚ :=
  startPointerAngle - currentRotation

/-- `handleMove`: raw rotation is the pointer angle minus the fixed offset,
then the snapping cascade is applied and the result stored. -/
def handleMoveRotation (pointerAngle offset : ℚ) : ℚ :=
  snapRotation (pointerAngle - offset)

/-! ### Image upload (App.handleImageUpload, img.onload callback) -/

/-- The `img.onload` callback of `handleImageUpload`: record the natural
size, switch the frame to the image's own dimensions when appropriate,
store the data URL, and reset the background configuration. -/
def handleImageLoad (s : EditorState) (result : String) (naturalWidth naturalHeight : ℚ)
    (isReplace : Bool) : EditorState :=
  let s1 := { s with originalSize := some (naturalWidth, naturalHeight) }
  let s2 :=
    if strFalsy s.image ∨ (¬ isReplace ∧ s.aspectRatio.name = "original")
        ∨ (isReplace ∧ s.aspectRatio.name = "original") then
      { s1 with aspectRatio :=
          { name := "original", width := naturalWidth, height := naturalHeight
            label := "原图", icon := "image" } }
    else s1
  { s2 with image := some result, bgConfig := INITIAL_BG_CONFIG }

/-! ### Export pipeline (App.handleExport) -/

/-- The option object handed to `toPng`: `commonConfig` spread together
with the per-attempt `cacheBust` flag. -/
structure ExportConfig where
  skipAutoScale : Bool
  pixelRatio : ℚ
  width : ℚ
  height : ℚ
  canvasWidth : ℚ
  canvasHeight : ℚ
  fontEmbedCSS : String
  styleTransform : String
  styleTransformOrigin : String
  fetchMode : String
  fetchCredentials : String
  cacheBust : Bool
deriving DecidableEq, Repr

/-- `commonConfig` from `handleExport`, plus the `cacheBust` flag each
`toPng` call spreads on top of it. -/
def commonConfig (s : EditorState) (cacheBust : Bool) : ExportConfig :=
  { skipAutoScale := true
    pixelRatio := 1
    width := s.aspectRatio.width
    height := s.aspectRatio.height
    canvasWidth := s.aspectRatio.width
    canvasHeight := s.aspectRatio.height
    fontEmbedCSS := s.fontCss
    styleTransform := "none"
    styleTransformOrigin := "top left"
    fetchMode := "cors"
    fetchCredentials := "omit"
    cacheBust := cacheBust }

/-- Modelled from the spec: the rasterizer (the external html-to-image
collaborator, not part of this repository) produces an output whose pixel
dimensions are the configured canvas size times the configured pixel
ratio. -/
def capturedDims (cfg : ExportConfig) : ℚ × ℚ :=
  (cfg.canvasWidth * cfg.pixelRatio, cfg.canvasHeight * cfg.pixelRatio)

/-- Outcome of one `toPng` call, supplied as an oracle: either a data URL
or a rejection. -/
inductive CaptureResult where
  | ok (dataUrl : String)
  | err
deriving DecidableEq, Repr

/-- Everything observable about one `handleExport` run: the state left
behind, the selection in force while capture ran (none when the early
return fired), the `toPng` configurations attempted in order, the data URL
delivered for download, and whether the failure alert fired. -/
structure ExportRun where
  finalState : EditorState
  selectionAtCapture : Option (Option String)
  attempts : List ExportConfig
  downloaded : Option String
  alerted : Bool
deriving DecidableEq, Repr

/-- `handleExport` from App. `hasWorkspace` models `workspaceRef.current`
being non-null; `fast` and `fallback` are the outcomes of the first and
second `toPng` call. The `finally` block restores the saved selection and
clears the busy flag on every path. -/
def handleExport (s : EditorState) (hasWorkspace : Bool) (fast fallback : CaptureResult) :
    ExportRun :=
  if ¬ hasWorkspace ∨ strFalsy s.image then
    { finalState := s, selectionAtCapture := none, attempts := [], downloaded := none
      alerted := false }
  else
    let originalSelection := s.selectedLayerId
    let finalState := { s with selectedLayerId := originalSelection, isExporting := false }
    match fast with
    | CaptureResult.ok url =>
        { finalState := finalState
          selectionAtCapture := some none
          attempts := [commonConfig s false]
          downloaded := if url = "" then none else some url
          alerted := false }
    | CaptureResult.err =>
        match fallback with
        | CaptureResult.ok url =>
            { finalState := finalState
              selectionAtCapture := some none
              attempts := [commonConfig s false, commonConfig s true]
              downloaded := if url = "" then none else some url
              alerted := false }
        | CaptureResult.err =>
            { finalState := finalState
              selectionAtCapture := some none
              attempts := [commonConfig s false, commonConfig s true]
              downloaded := none
              alerted := true }

/-! ### Caption service (services/geminiService.ts) -/

/-- Outcome of the external text-generation API call, supplied as an
oracle: the response text, or a thrown error. -/
inductive ApiOutcome where
  | success (text : String)
  | apiError (msg : String)
deriving DecidableEq, Repr

/-- `getClient`: throws when the API key is absent (JavaScript falsy check
covers both a missing and an empty environment value). -/
def getClient (apiKey : Option String) : Except String Unit :=
  if strFalsy apiKey then Except.error "API Key is missing" else Except.ok ()

/-- The prompt built by `generateCaption` from the optional topic. -/
def captionPrompt (topic : Option String) : String :=
  match topic with
  | some t =>
      "请为一张关于\"" ++ t ++ "\"的图片生成一个简短、有创意、吸引人的中文标题或文案，不超过15个字，不要带引号。"
  | none => "请生成一个通用的、充满正能量或文艺气息的中文图片配文，不超过12个字，不要带引号。"

/-- The body of `generateCaption`'s `try` block: obtain a client, call the
model, trim the response text; any step may throw. -/
def generateCaptionBody (apiKey : Option String) (topic : Option String) (o : ApiOutcome) :
    Except String String := do
  let _ ← getClient apiKey
  let _ := captionPrompt topic
  match o with
  | ApiOutcome.success t => Except.ok t.trim
  | ApiOutcome.apiError msg => Except.error msg

/-- The fixed fallback caption returned from the `catch` block. -/
def FALLBACK_CAPTION : String := "美好的一天 ✨"

/-- `generateCaption`: the try/catch wrapper, which always returns a
string and never re-throws. -/
def generateCaption (apiKey : Option String) (topic : Option String) (o : ApiOutcome) : String :=
  match generateCaptionBody apiKey topic o with
  | Except.ok s => s
  | Except.error _ => FALLBACK_CAPTION

/-! ### Invariants and sample states -/

/-- The spec's layer invariant: `style` is present iff `kind = Text`. -/
def styleInv (s : EditorState) : Prop :=
  ∀ l ∈ s.layers, l.style.isSome = true ↔ l.type = LayerType.TEXT

instance (s : EditorState) : Decidable (styleInv s) := by
  unfold styleInv; infer_instance

/-- The first entry of `ASPECT_RATIOS` from constants.ts, the initial
frame. -/
def SQUARE_RATIO : AspectRatio :=
  { name := "1:1", width := 1080, height := 1080, label := "正方形", icon := "square" }

/-- The App component's initial state: no image, no layers, no selection,
square frame, default background configuration, 60 percent zoom. -/
def emptyState : EditorState :=
  { image := none, layers := [], selectedLayerId := none, aspectRatio := SQUARE_RATIO
    originalSize := none, bgConfig := INITIAL_BG_CONFIG, canvasScale := 6/10
    isExporting := false, isMobile := false, fontCss := "" }

/-- The state after uploading an 800 by 600 image into the fresh session. -/
def loadedState : EditorState := handleImageLoad emptyState "data:img" 800 600 false

/-- The loaded state after adding one sticker layer, which is selected. -/
def stateWithSticker : EditorState := (addStickerLayer loadedState "s1" "🔥").1

/-- A Text layer matching what `addTextLayer` creates: 400 by 150 box with
the default style (font size 42), as in the spec's resize example. -/
def sampleTextLayer : Layer :=
  { id := "t1", type := LayerType.TEXT, x := 340, y := 465, width := 400, height := 150
    rotation := 0, content := "双击编辑文本", style := some INITIAL_TEXT_STYLE }

/-! ### Theorems -/

/-- Claim C4: with no background image loaded, `addText` and `addSticker`
are no-ops on the editor state — layers and selection (indeed the whole
state) are unchanged — and the failure is surfaced as a blocking alert
with no other state change. -/
theorem addLayer_noop_without_image (s : EditorState) (newId sticker : String)
    (h : strFalsy s.image = true) :
    addTextLayer s newId = (s, some "请先上传图片") ∧
    addStickerLayer s newId sticker = (s, some "请先上传图片") := by
  refine ⟨?_, ?_⟩ <;> simp [addTextLayer, addStickerLayer, h]

/-- Witness for C4 at the initial (imageless) state. -/
theorem addLayer_noop_without_image_witness :
    addTextLayer emptyState "id1" = (emptyState, some "请先上传图片") ∧
    addStickerLayer emptyState "id1" "🔥" = (emptyState, some "请先上传图片") :=
  addLayer_noop_without_image emptyState "id1" "🔥" (by decide)

/-- Claim C6: for an id present in the store, `delete` removes every layer
carrying that id and keeps exactly the others; it clears the selection when
the deleted id was selected, and leaves the selection unchanged when it was
not. -/
theorem deleteLayer_spec (s : EditorState) (id : String)
    (hmem : ∃ l ∈ s.layers, l.id = id) :
    (∀ l ∈ (deleteLayer s id).layers, l.id ≠ id) ∧
    (∀ l ∈ s.layers, l.id ≠ id → l ∈ (deleteLayer s id).layers) ∧
    (∀ l ∈ (deleteLayer s id).layers, l ∈ s.layers) ∧
    (s.selectedLayerId = some id → (deleteLayer s id).selectedLayerId = none) ∧
    (s.selectedLayerId ≠ some id → (deleteLayer s id).selectedLayerId = s.selectedLayerId) := by
  refine ⟨?_, ?_, ?_, ?_, ?_⟩
  · intro l hl
    simp only [deleteLayer, List.mem_filter, decide_eq_true_eq] at hl
    exact hl.2
  · intro l hl hne
    simp only [deleteLayer, List.mem_filter, decide_eq_true_eq]
    exact ⟨hl, hne⟩
  · intro l hl
    simp only [deleteLayer, List.mem_filter, decide_eq_true_eq] at hl
    exact hl.1
  · intro hsel
    simp [deleteLayer, hsel]
  · intro hsel
    simp [deleteLayer, hsel]

/-- Witness for C6: deleting the selected sticker clears the selection and
empties the layer list of its id. -/
theorem deleteLayer_spec_witness :
    (deleteLayer stateWithSticker "s1").selectedLayerId = none ∧
    (∀ l ∈ (deleteLayer stateWithSticker "s1").layers, l.id ≠ "s1") := by
  have h := deleteLayer_spec stateWithSticker "s1" (by decide)
  exact ⟨h.2.2.2.1 (by decide), h.1⟩

/-- Claim C9: every completed image load or replacement resets the
background configuration to scale 1, x 0, y 0, filter "none", and leaves
the layer list and the selection unchanged. -/
theorem handleImageLoad_resets_bg (s : EditorState) (result : String) (w h : ℚ)
    (isReplace : Bool) :
    (handleImageLoad s result w h isReplace).bgConfig =
        { scale := 1, x := 0, y := 0, filter := "none" } ∧
    (handleImageLoad s result w h isReplace).layers = s.layers ∧
    (handleImageLoad s result w h isReplace).selectedLayerId = s.selectedLayerId := by
  unfold handleImageLoad INITIAL_BG_CONFIG
  split <;> simp

/-- Claim C10: `generateCaption` never propagates an error: whenever its
body throws — in particular on a missing credential or an API error — it
returns the fixed fallback caption. -/
theorem generateCaption_fallback (apiKey topic : Option String) (o : ApiOutcome) :
    (∀ msg, generateCaptionBody apiKey topic o = Except.error msg →
        generateCaption apiKey topic o = FALLBACK_CAPTION) ∧
    (strFalsy apiKey = true → generateCaption apiKey topic o = FALLBACK_CAPTION) ∧
    (∀ msg, o = ApiOutcome.apiError msg → generateCaption apiKey topic o = FALLBACK_CAPTION) := by
  refine ⟨?_, ?_, ?_⟩
  · intro msg hmsg
    simp [generateCaption, hmsg]
  · intro hkey
    simp [generateCaption, generateCaptionBody, getClient, hkey, Bind.bind, Except.bind]
  · intro msg ho
    subst ho
    unfold generateCaption generateCaptionBody getClient
    by_cases hkey : strFalsy apiKey = true <;> simp [hkey, Bind.bind, Except.bind]

/-- Witness for C10: a missing key and a failing API call each yield the
fallback caption. -/
theorem generateCaption_fallback_witness :
    generateCaption none (some "旅行") (ApiOutcome.success "你好") = FALLBACK_CAPTION ∧
    generateCaption (some "k") none (ApiOutcome.apiError "network") = FALLBACK_CAPTION := by
  refine ⟨?_, ?_⟩
  · exact (generateCaption_fallback none (some "旅行") (ApiOutcome.success "你好")).2.1 (by decide)
  · exact (generateCaption_fallback (some "k") none (ApiOutcome.apiError "network")).2.2 "network" rfl

/-- Claim C3: the capture configuration fixes the output raster to the
active frame's width by height at pixel ratio 1 with the captured
element's transform forced to "none"; the configuration — and hence the
whole attempted-capture trace — is identical for any two interactive zoom
values, so the export size does not depend on the zoom at capture time. -/
theorem exportConfig_zoom_independent (s : EditorState) (z1 z2 : ℚ) (cb : Bool)
    (hasWorkspace : Bool) (fast fallback : CaptureResult) :
    commonConfig { s with canvasScale := z1 } cb = commonConfig { s with canvasScale := z2 } cb ∧
    (commonConfig s cb).width = s.aspectRatio.width ∧
    (commonConfig s cb).height = s.aspectRatio.height ∧
    (commonConfig s cb).pixelRatio = 1 ∧
    (commonConfig s cb).styleTransform = "none" ∧
    capturedDims (commonConfig s cb) = (s.aspectRatio.width, s.aspectRatio.height) ∧
    (handleExport { s with canvasScale := z1 } hasWorkspace fast fallback).attempts =
      (handleExport { s with canvasScale := z2 } hasWorkspace fast fallback).attempts := by
  refine ⟨rfl, rfl, rfl, rfl, rfl, ?_, ?_⟩
  · simp [capturedDims, commonConfig]
  · unfold handleExport
    rcases himg : s.image with _ | str
    · cases hasWorkspace <;> cases fast <;> cases fallback <;> simp [strFalsy, himg]
    · by_cases hstr : str = "" <;> cases hasWorkspace <;> cases fast <;> cases fallback <;>
        simp [strFalsy, himg, hstr, commonConfig]

/-- Claim C7: with an image loaded and a workspace mounted, `handleExport`
clears the selection before capture (its value during capture is none) and
restores the pre-export selection — and the rest of the state — on every
outcome: fast-path success, fallback success and total failure alike. -/
theorem handleExport_restores_selection (s : EditorState) (fast fallback : CaptureResult)
    (h : strFalsy s.image = false) :
    (handleExport s true fast fallback).selectionAtCapture = some none ∧
    (handleExport s true fast fallback).finalState.selectedLayerId = s.selectedLayerId ∧
    (handleExport s true fast fallback).finalState.layers = s.layers ∧
    (handleExport s true fast fallback).finalState.isExporting = false := by
  unfold handleExport
  simp only [h]
  cases fast with
  | ok url => simp
  | err => cases fallback with
    | ok url => simp
    | err => simp

/-- Witness for C7: exporting from the sticker state with both attempts
failing still restores the selection to the sticker and reports capture
ran unselected. -/
theorem handleExport_restores_selection_witness :
    (handleExport stateWithSticker true CaptureResult.err CaptureResult.err).selectionAtCapture =
        some none ∧
    (handleExport stateWithSticker true CaptureResult.err CaptureResult.err).finalState.selectedLayerId =
        some "s1" := by
  have h := handleExport_restores_selection stateWithSticker CaptureResult.err CaptureResult.err
      (by decide)
  exact ⟨h.1, h.2.1.trans (by decide)⟩

/-- Claim C8: with an image loaded and a workspace mounted, the capture is
attempted at most twice: the first attempt always uses the cached-font
fast path (no cache busting); exactly one cache-busting retry follows when
and only when the first attempt fails, and no third attempt ever occurs. -/
theorem handleExport_attempts (s : EditorState) (fast fallback : CaptureResult)
    (h : strFalsy s.image = false) :
    (∀ url, fast = CaptureResult.ok url →
        (handleExport s true fast fallback).attempts = [commonConfig s false]) ∧
    (fast = CaptureResult.err →
        (handleExport s true fast fallback).attempts =
          [commonConfig s false, commonConfig s true]) ∧
    (handleExport s true fast fallback).attempts.length ≤ 2 ∧
    (handleExport s true fast fallback).attempts.head? = some (commonConfig s false) := by
  unfold handleExport
  simp only [h]
  cases fast with
  | ok url => simp
  | err => cases fallback with
    | ok url => simp
    | err => simp

/-- Witness for C8: a failing fast attempt is followed by exactly one
cache-busting retry. -/
theorem handleExport_attempts_witness :
    (handleExport loadedState true CaptureResult.err (CaptureResult.ok "d")).attempts =
      [commonConfig loadedState false, commonConfig loadedState true] :=
  (handleExport_attempts loadedState CaptureResult.err (CaptureResult.ok "d")
      (by decide)).2.1 rfl

/-- `onResize` never changes the layer's kind. -/
theorem onResize_type (sd : Option ResizeStartData) (l : Layer) (ev : ResizeEvent) :
    (onResize sd l ev).type = l.type := by
  unfold onResize
  rcases l.style with _ | st <;> rcases sd with _ | d <;> simp <;> split <;> rfl

/-- On an edge handle, `onResize` leaves the style untouched. -/
theorem onResize_edge_style (sd : Option ResizeStartData) (l : Layer) (ev : ResizeEvent)
    (he : isCorner ev.direction = false) :
    (onResize sd l ev).style = l.style := by
  unfold onResize
  rcases l.style with _ | st <;> rcases sd with _ | d <;> simp [he]

/-- On a corner handle, `onResize` on a Text layer with a style rewrites
the font size from the captured start data and the new height. -/
theorem onResize_corner_fontSize (sd : ResizeStartData) (l : Layer) (ev : ResizeEvent)
    (hty : l.type = LayerType.TEXT) (st : FontStyle) (hst : l.style = some st)
    (hc : isCorner ev.direction = true) :
    (onResize (some sd) l ev).style =
      some ({ st with fontSize := max 12 (sd.fontSize * (ev.newHeight / sd.height)) }) := by
  unfold onResize
  rw [hst]
  simp [hty, hc]

/-- Folding `onResize` steps over a Text layer with a style keeps the kind
Text and keeps some style present. -/
theorem foldl_onResize_text (sd : Option ResizeStartData) (evs : List ResizeEvent) :
    ∀ l : Layer, l.type = LayerType.TEXT → l.style.isSome = true →
      (evs.foldl (onResize sd) l).type = LayerType.TEXT ∧
      ((evs.foldl (onResize sd) l).style).isSome = true := by
  induction evs with
  | nil => intro l hty hst; exact ⟨hty, hst⟩
  | cons ev evs ih =>
      intro l hty hst
      have hty' : (onResize sd l ev).type = LayerType.TEXT := (onResize_type sd l ev).trans hty
      have hst' : ((onResize sd l ev).style).isSome = true := by
        unfold onResize
        rcases h : l.style with _ | st
        · rw [h] at hst; simp at hst
        · rcases sd with _ | d
          · simp [h]
          · simp only [h]
            split <;> simp
      exact ih (onResize sd l ev) hty' hst'

/-- Claim C1: in any resize gesture on a Text layer whose events all come
from one handle, a corner handle yields a final font size of
max(12, startFontSize * (finalHeight / startHeight)) — start height and
start font size being the values captured once at gesture start — while an
edge handle leaves the style, hence the font size, unchanged. -/
theorem resizeGesture_fontSize (l : Layer) (prev : Option ResizeStartData) (st : FontStyle)
    (hty : l.type = LayerType.TEXT) (hst : l.style = some st)
    (evs : List ResizeEvent) (d : ResizeDir) (hd : ∀ ev ∈ evs, ev.direction = d) :
    (isCorner d = true → ∀ last, evs.getLast? = some last →
      ∃ st' : FontStyle, (resizeGesture l prev evs).style = some st' ∧
        st'.fontSize = max 12 (st.fontSize * (last.newHeight / l.height))) ∧
    (isCorner d = false → (resizeGesture l prev evs).style = some st) := by
  have hstart : onResizeStart l prev = some ⟨l.width, l.height, st.fontSize⟩ := by
    unfold onResizeStart
    rw [hst]
    simp [hty]
  constructor
  · intro hc last hlast
    induction evs using List.reverseRecOn with
    | nil => simp at hlast
    | append_singleton init ev _ =>
        rw [List.getLast?_concat] at hlast
        injection hlast with hlast
        subst hlast
        unfold resizeGesture
        rw [hstart, List.foldl_append, List.foldl_cons, List.foldl_nil]
        set mid := init.foldl (onResize (some ⟨l.width, l.height, st.fontSize⟩)) l with hmid
        have hmidprops := foldl_onResize_text (some ⟨l.width, l.height, st.fontSize⟩) init l
          hty (by rw [hst]; rfl)
        rcases hstmid : mid.style with _ | stmid
        · rw [← hmid, hstmid] at hmidprops; simp at hmidprops
        · have hcmid : isCorner ev.direction = true := by
            rw [hd ev (by simp)]; exact hc
          rw [onResize_corner_fontSize ⟨l.width, l.height, st.fontSize⟩ mid ev
            (hmidprops.1) stmid hstmid hcmid]
          exact ⟨_, rfl, rfl⟩
  · intro hec
    induction evs using List.reverseRecOn with
    | nil => unfold resizeGesture; simpa using hst
    | append_singleton init ev ih =>
        unfold resizeGesture
        rw [List.foldl_append, List.foldl_cons, List.foldl_nil]
        have hee : isCorner ev.direction = false := by
          rw [hd ev (by simp)]; exact hec
        rw [onResize_edge_style _ _ _ hee]
        have := ih (fun e he => hd e (by simp [he]))
        unfold resizeGesture at this
        exact this

/-- Witness for C1, on the spec's own example: a 150-high, font-size-42
Text layer resized to height 225 via the bottom-right corner has font size
63; resized to height 225 via the bottom edge, its style is untouched. -/
theorem resizeGesture_fontSize_witness :
    (∃ st' : FontStyle,
      (resizeGesture sampleTextLayer none
          [⟨ResizeDir.bottomRight, 600, 225, 340, 465⟩]).style = some st' ∧
      st'.fontSize = 63) ∧
    (resizeGesture sampleTextLayer none
        [⟨ResizeDir.bottom, 400, 225, 340, 465⟩]).style = some INITIAL_TEXT_STYLE := by
  have hc := (resizeGesture_fontSize sampleTextLayer none INITIAL_TEXT_STYLE rfl rfl
      [⟨ResizeDir.bottomRight, 600, 225, 340, 465⟩] ResizeDir.bottomRight
      (by intro ev hev; simp at hev; rw [hev])).1 rfl
      ⟨ResizeDir.bottomRight, 600, 225, 340, 465⟩ rfl
  have he := (resizeGesture_fontSize sampleTextLayer none INITIAL_TEXT_STYLE rfl rfl
      [⟨ResizeDir.bottom, 400, 225, 340, 465⟩] ResizeDir.bottom
      (by intro ev hev; simp at hev; rw [hev])).2 rfl
  refine ⟨?_, he⟩
  obtain ⟨st', h1, h2⟩ := hc
  refine ⟨st', h1, h2.trans ?_⟩
  norm_num [INITIAL_TEXT_STYLE, sampleTextLayer]

/-- Claim C2: with n the raw rotation normalized to [0, 360), a raw value
whose n lies within the 5-degree window of 0 (n below 5 or above 355), 90,
180 or 270 is snapped exactly to round(rotation/360)*360 plus that axis
value, preserving the winding count; outside every window the raw rotation
is stored unchanged. In particular 88 snaps to exactly 90 and 84 stays
84. -/
theorem snapRotation_windows (r : ℚ) :
    (normalizedRot r < 5 ∨ normalizedRot r > 355 →
        snapRotation r = (jsRound (r / 360) : ℚ) * 360) ∧
    (|normalizedRot r - 90| < 5 → snapRotation r = (jsRound (r / 360) : ℚ) * 360 + 90) ∧
    (|normalizedRot r - 180| < 5 → snapRotation r = (jsRound (r / 360) : ℚ) * 360 + 180) ∧
    (|normalizedRot r - 270| < 5 → snapRotation r = (jsRound (r / 360) : ℚ) * 360 + 270) ∧
    (¬(normalizedRot r < 5 ∨ normalizedRot r > 355) → ¬(|normalizedRot r - 90| < 5) →
      ¬(|normalizedRot r - 180| < 5) → ¬(|normalizedRot r - 270| < 5) → snapRotation r = r) ∧
    snapRotation 88 = 90 ∧ snapRotation 84 = 84 := by
  refine ⟨?_, ?_, ?_, ?_, ?_, ?_, ?_⟩
  · intro h
    unfold snapRotation
    rw [if_pos h]
  · intro h
    obtain ⟨h1, h2⟩ := abs_lt.mp h
    unfold snapRotation
    rw [if_neg (by push_neg; exact ⟨by linarith, by linarith⟩), if_pos h]
  · intro h
    obtain ⟨h1, h2⟩ := abs_lt.mp h
    have h90 := le_abs_self (normalizedRot r - 90)
    unfold snapRotation
    rw [if_neg (by push_neg; exact ⟨by linarith, by linarith⟩),
        if_neg (not_lt.mpr (by linarith)), if_pos h]
  · intro h
    obtain ⟨h1, h2⟩ := abs_lt.mp h
    have h90 := le_abs_self (normalizedRot r - 90)
    have h180 := le_abs_self (normalizedRot r - 180)
    unfold snapRotation
    rw [if_neg (by push_neg; exact ⟨by linarith, by linarith⟩),
        if_neg (not_lt.mpr (by linarith)), if_neg (not_lt.mpr (by linarith)), if_pos h]
  · intro h0 h90 h180 h270
    unfold snapRotation
    rw [if_neg h0, if_neg h90, if_neg h180, if_neg h270]
  · norm_num [snapRotation, normalizedRot, jsMod, jsTrunc, jsRound]
  · norm_num [snapRotation, normalizedRot, jsMod, jsTrunc, jsRound]

/-- Witness for C2: the 90-degree window implication fires at a raw angle
of 88, whose snapped value round(88/360)*360 + 90 is exactly 90. -/
theorem snapRotation_windows_witness :
    snapRotation 88 = (jsRound ((88 : ℚ) / 360) : ℚ) * 360 + 90 ∧
    snapRotation 84 = 84 :=
  ⟨(snapRotation_windows 88).2.1 (by norm_num [normalizedRot, jsMod, jsTrunc]),
   (snapRotation_windows 88).2.2.2.2.2.2⟩

/-- Counterexample to claim C5 as stated: from a reachable state holding
one sticker layer (where the invariant holds), the store operation
`update` invoked with a payload carrying a style breaks the "style present
iff kind is Text" invariant, because `updateLayer` merges any payload into
any layer without checking its kind. -/
theorem styleInv_update_counterexample :
    styleInv stateWithSticker ∧
    ¬ styleInv (updateLayer stateWithSticker "s1" { style := some INITIAL_TEXT_STYLE }) := by
  refine ⟨by decide, by decide⟩

/-- Claim C5 (amended): the invariant "style present iff kind is Text" is
preserved by addText, addSticker, updateStyle, delete and select
unconditionally, and by update whenever the payload does not change the
layer kind and carries a style only when every targeted layer is a Text
layer — which is the case at every call site of the program. -/
theorem styleInv_preserved (s : EditorState) (hs : styleInv s) :
    (∀ newId, styleInv (addTextLayer s newId).1) ∧
    (∀ newId g, styleInv (addStickerLayer s newId g).1) ∧
    (∀ id u, u.type = none →
        (u.style = none ∨ ∀ l ∈ s.layers, l.id = id → l.type = LayerType.TEXT) →
        styleInv (updateLayer s id u)) ∧
    (∀ id u, styleInv (updateLayerStyle s id u)) ∧
    (∀ id, styleInv (deleteLayer s id)) ∧
    (∀ oid, styleInv (selectLayer s oid)) := by
  refine ⟨?_, ?_, ?_, ?_, ?_, ?_⟩
  · intro newId
    unfold addTextLayer styleInv
    split
    · exact hs
    · intro l hl
      rw [List.mem_append] at hl
      rcases hl with hl | hl
      · exact hs l hl
      · rw [List.mem_singleton] at hl
        subst hl
        simp
  · intro newId g
    unfold addStickerLayer styleInv
    split
    · exact hs
    · intro l hl
      rw [List.mem_append] at hl
      rcases hl with hl | hl
      · exact hs l hl
      · rw [List.mem_singleton] at hl
        subst hl
        simp
  · intro id u hty hstyle l hl
    simp only [updateLayer, List.mem_map] at hl
    obtain ⟨l0, hl0, rfl⟩ := hl
    by_cases hid : l0.id = id
    · rw [if_pos hid]
      rcases hstyle with hnone | htext
      · have hsty : (mergeLayer l0 u).style = l0.style := by simp [mergeLayer, hnone]
        have ht : (mergeLayer l0 u).type = l0.type := by simp [mergeLayer, hty]
        rw [hsty, ht]
        exact hs l0 hl0
      · have hl0t : l0.type = LayerType.TEXT := htext l0 hl0 hid
        have ht : (mergeLayer l0 u).type = LayerType.TEXT := by
          simp [mergeLayer, hty, hl0t]
        rw [ht]
        rcases hu : u.style with _ | st
        · have hsty : (mergeLayer l0 u).style = l0.style := by simp [mergeLayer, hu]
          rw [hsty, hs l0 hl0, hl0t]
        · have hsty : (mergeLayer l0 u).style = some st := by simp [mergeLayer, hu]
          rw [hsty]
          simp
    · rw [if_neg hid]
      exact hs l0 hl0
  · intro id u l hl
    simp only [updateLayerStyle, List.mem_map] at hl
    obtain ⟨l0, hl0, rfl⟩ := hl
    by_cases hc : l0.id = id ∧ l0.type = LayerType.TEXT
    · rw [if_pos hc]
      rcases hst : l0.style with _ | st
      · have := hs l0 hl0
        rw [hst] at this
        simp [hc.2] at this
      · simp [hc.2]
    · rw [if_neg hc]
      exact hs l0 hl0
  · intro id l hl
    simp only [deleteLayer, List.mem_filter] at hl
    exact hs l hl.1
  · intro oid l hl
    exact hs l hl

/-- Witness for the amended C5: a call-site-shaped update (position only)
and a delete both preserve the invariant on the sticker state. -/
theorem styleInv_preserved_witness :
    styleInv (updateLayer stateWithSticker "s1" { x := some 5 }) ∧
    styleInv (deleteLayer stateWithSticker "s1") := by
  have h := styleInv_preserved stateWithSticker (by decide)
  exact ⟨h.2.2.1 "s1" { x := some 5 } rfl (Or.inl rfl), h.2.2.2.2.1 "s1"⟩

end Tuling
